import Mathlib

/-!
Verification development for the meshtastic chat client
(src/meshtastic_monkey_0.8fl.py).

The Python program is shallowly embedded: each global constant, pure
function and lock-guarded critical section of the source is translated to
an executable Lean definition.  Mutable dictionaries (`pending_acks`,
`name_cache`, `interface.nodes`) become insertion-ordered association
lists, mirroring CPython dict semantics (iteration order = insertion
order, assignment to an existing key keeps its position).  The
`queue.Queue(maxsize=30)` becomes a bounded FIFO list.  Timestamps
(`time.time()`) are modelled as integers measured in seconds; every
arithmetic comparison performed by the source (`now - t0 > ACK_TIMEOUT`)
is order-theoretic, so nothing depends on fractional values.  Each
lock-protected block (`with pending_lock: ...`) is a single atomic
operation of the model, which is exactly what the lock guarantees.
-/

/-! ## Constants (lines 14-28 of the source) -/

def C_BLUE : String := "\x1b[94m"

def C_GREEN : String := "\x1b[32m"

def C_RED : String := "\x1b[91m"

def C_RESET : String := "\x1b[0m"

def ACK_TIMEOUT : Int := 30

def MAX_PENDING_ACKS : Nat := 100

/-- Capacity of `send_queue = queue.Queue(maxsize=30)` (line 28). -/
def SEND_QUEUE_MAX : Nat := 30

/-- Python broadcast node number `0xFFFFFFFF`. -/
def BROADCAST_NUM : Int := 4294967295

/-! ## Python `int(s, 16)` and hex formatting

`normalize_node_id` calls `int(raw_id[1:], 16)`; `resolve_node` does the
same on tokens.  We embed CPython's base-16 string-to-int conversion for
ASCII input: optional surrounding whitespace, an optional sign, an
optional `0x`/`0X` tag (with an optional single underscore after it),
then hex digits in which single underscores may separate digits.
A failed conversion (Python `ValueError`) is `none`. -/

def isPyWs (c : Char) : Bool :=
  c == ' ' || c == '\t' || c == '\n' || c == '\r' || c.toNat == 11 || c.toNat == 12

def hexDigitVal (c : Char) : Option Nat :=
  if 48 ≤ c.toNat ∧ c.toNat ≤ 57 then some (c.toNat - 48)
  else if 97 ≤ c.toNat ∧ c.toNat ≤ 102 then some (c.toNat - 87)
  else if 65 ≤ c.toNat ∧ c.toNat ≤ 70 then some (c.toNat - 55)
  else none

/-- Hex digits after the first one: single underscores may occur between
digits, never trailing and never doubled. -/
def hexTail : List Char → Nat → Option Nat
  | [], acc => some acc
  | c :: cs, acc =>
    match hexDigitVal c with
    | some v => hexTail cs (16 * acc + v)
    | none =>
      if c = '_' then
        match cs with
        | c2 :: cs2 =>
          match hexDigitVal c2 with
          | some v2 => hexTail cs2 (16 * acc + v2)
          | none => none
        | [] => none
      else none

/-- A nonempty run of hex digits (first char must be a digit). -/
def hexNum (cs : List Char) : Option Nat :=
  match cs with
  | [] => none
  | c :: rest =>
    match hexDigitVal c with
    | some v => hexTail rest v
    | none => none

/-- Digits after a `0x` tag: one leading underscore is tolerated. -/
def hexNum0x (cs : List Char) : Option Nat :=
  match cs with
  | '_' :: rest => hexNum rest
  | _ => hexNum cs

def parseCoreHex (cs : List Char) : Option Nat :=
  match cs with
  | c0 :: c :: rest =>
    if c0 = '0' ∧ (c = 'x' ∨ c = 'X') then hexNum0x rest
    else hexNum (c0 :: c :: rest)
  | _ => hexNum cs

def stripPyWs (cs : List Char) : List Char :=
  ((cs.dropWhile isPyWs).reverse.dropWhile isPyWs).reverse

/-- CPython `int(s, 16)` on ASCII input, `none` on `ValueError`. -/
def pyIntHex (s : String) : Option Int :=
  match stripPyWs s.toList with
  | '+' :: rest => (parseCoreHex rest).map (fun n => (n : Int))
  | '-' :: rest => (parseCoreHex rest).map (fun n => -(n : Int))
  | rest => (parseCoreHex rest).map (fun n => (n : Int))

/-- One lowercase hex digit, as produced by Python `%x` formatting. -/
def hexDigitChar (n : Nat) : Char :=
  if n < 10 then Char.ofNat (48 + n) else Char.ofNat (87 + n)

/-- Fuel-driven base-16 digit expansion (most significant digit first). -/
def hexCore : Nat → Nat → List Char → List Char
  | 0, _, ds => ds
  | fuel + 1, n, ds =>
    if n < 16 then hexDigitChar n :: ds
    else hexCore fuel (n / 16) (hexDigitChar (n % 16) :: ds)

def hexDigitsOf (n : Nat) : List Char :=
  hexCore (n + 1) n []

def padZero (w : Nat) (s : String) : String :=
  String.mk (List.replicate (w - s.length) '0') ++ s

/-- Python `f-string` formatting with spec `08x`: lowercase hex, zero
padded to a minimum total width of 8 (a sign counts toward the width). -/
def hex8 (n : Int) : String :=
  if n < 0 then ("-") ++ padZero 7 (String.mk (hexDigitsOf n.natAbs))
  else padZero 8 (String.mk (hexDigitsOf n.toNat))

/-! ## Node-id normalization (`normalize_node_id`, lines 33-41)

A raw identifier arriving from a packet field is a Python object: a
string, an int, `None`, or anything else (`RawId.other`).  Python
truthiness used by the source (`a or b`, `if from_id:`) is embedded
explicitly: empty strings, the int 0 and `None` are falsy, any other
object is truthy. -/

inductive RawId where
  | str (s : String)
  | int (n : Int)
  | other
deriving DecidableEq

def rawTruthy : Option RawId → Bool
  | none => false
  | some (RawId.str s) => !(s == "")
  | some (RawId.int n) => !(n == 0)
  | some RawId.other => true

/-- Python `a or b`. -/
def pyOr (a b : Option RawId) : Option RawId :=
  if rawTruthy a then a else b

/-- `normalize_node_id` (lines 33-41): a string starting with `!` is
parsed as hex (parse failure gives `None`), an int passes through,
anything else gives `None`. -/
def normalize_node_id : Option RawId → Option Int
  | some (RawId.str s) =>
    if s.startsWith ("!") then pyIntHex (s.drop 1) else none
  | some (RawId.int n) => some n
  | some RawId.other => none
  | none => none

/-- Python truthiness of an optional int (`if from_id:`): `None` and 0
are falsy. -/
def optIntTruthy : Option Int → Bool
  | none => false
  | some n => !(n == 0)

/-! ## Node directory and name cache (`get_name_and_id`, lines 43-71)

`interface.nodes` is one dict whose keys are either ints or `!hex`
strings; each value may carry a user record with an optional short name.
`name_cache` is a dict from int node-ids to strings, guarded by
`name_cache_lock`; each guarded block is one atomic operation here. -/

inductive NodeKey where
  | intKey (n : Int)
  | strKey (s : String)
deriving DecidableEq

structure NodeRec where
  shortName : Option String
deriving DecidableEq

abbrev Directory : Type := List (NodeKey × NodeRec)

def dirGetInt (d : Directory) (n : Int) : Option NodeRec :=
  (d.find? (fun e => decide (e.1 = NodeKey.intKey n))).map (fun e => e.2)

def dirGetStr (d : Directory) (s : String) : Option NodeRec :=
  (d.find? (fun e => decide (e.1 = NodeKey.strKey s))).map (fun e => e.2)

abbrev Cache : Type := List (Int × String)

def cacheGet (c : Cache) (n : Int) : Option String :=
  (c.find? (fun e => decide (e.1 = n))).map (fun e => e.2)

/-- CPython dict assignment: overwrite in place if the key exists,
append otherwise. -/
def cacheSet (c : Cache) (n : Int) (v : String) : Cache :=
  if c.any (fun e => decide (e.1 = n)) then
    c.map (fun e => if e.1 = n then (n, v) else e)
  else c ++ [(n, v)]

/-- `name_cache.pop(nid, None)` from `on_node_updated` (lines 92-96). -/
def cachePop (c : Cache) (n : Int) : Cache :=
  c.eraseP (fun e => decide (e.1 = n))

/-- `if short:` — a present but empty short name is falsy in Python. -/
def truthyStr : Option String → Option String
  | some s => if s = "" then none else some s
  | none => none

/-- `interface.nodes.get(node_id, {}).get("user", {}).get("shortName")`. -/
def lookupShortInt (d : Directory) (n : Int) : Option String :=
  (dirGetInt d n).bind (fun r => r.shortName)

/-- `get_name_and_id` (lines 43-71).  Returns
(`name_cache.get(node_id, "unknown")`, display label, updated cache).
The `isinstance(node_id, int)` guard is absorbed by the `Option Int`
argument type: `normalize_node_id` only ever produces `None` or an int,
and a `None` (absent) id short-circuits to `("unknown", "@unknown")`.
An `interface.nodes` hex entry that is an empty dict is falsy in Python
and takes the same fallback branch as an absent entry; both produce the
same cache update and display, so they are merged here. -/
def get_name_and_id (dir : Directory) (cache : Cache) (nid : Option Int) :
    String × String × Cache :=
  match nid with
  | none => ("unknown", "@unknown", cache)
  | some n =>
    match cacheGet cache n with
    | some nm => (nm, nm ++ " (@!" ++ hex8 n ++ ")", cache)
    | none =>
      match truthyStr (lookupShortInt dir n) with
      | some s =>
        let c2 := cacheSet cache n s
        ((cacheGet c2 n).getD ("unknown"), s ++ " (@!" ++ hex8 n ++ ")", c2)
      | none =>
        let hk := "!" ++ hex8 n
        match truthyStr ((dirGetStr dir hk).bind (fun r => r.shortName)) with
        | some s =>
          let c2 := cacheSet cache n s
          ((cacheGet c2 n).getD ("unknown"), s ++ " (@" ++ hk ++ ")", c2)
        | none =>
          let c2 := cacheSet cache n hk
          ((cacheGet c2 n).getD ("unknown"), hk ++ " (@!" ++ hex8 n ++ ")", c2)

/-- `resolve_node` (lines 73-90): a `!hex` token parses directly;
otherwise the directory snapshot is scanned in order for a node whose
short name equals the token, normalizing whichever key form it has; a
string key that fails to parse is skipped and the scan continues. -/
def resolveScan (token : String) : List (NodeKey × NodeRec) → Option Int
  | [] => none
  | (k, r) :: rest =>
    if r.shortName = some token then
      match k with
      | NodeKey.intKey n => some n
      | NodeKey.strKey s =>
        if s.startsWith ("!") then
          match pyIntHex (s.drop 1) with
          | some v => some v
          | none => resolveScan token rest
        else resolveScan token rest
    else resolveScan token rest

def resolve_node (dir : Directory) (token : String) : Option Int :=
  if token.startsWith ("!") then pyIntHex (token.drop 1)
  else resolveScan token dir

/-! ## Acknowledgment registry (`pending_acks` + `pending_lock`)

`pending_acks` is a dict from request id to `(sentAt, destination)`.
Every access in the source sits inside `with pending_lock:`; each such
critical section is one atomic operation below:
`register` is the guarded block of `sender_thread` (lines 110-117),
`complete` is the guarded pop of `on_receive` (lines 136-137) and
`sweepExpired` is the guarded scan-and-pop loop of `ack_watcher`
(lines 288-292). -/

abbrev RegEntry : Type := Int × Int × Option Int

abbrev Reg : Type := List RegEntry

def regKeys (reg : Reg) : List Int :=
  reg.map (fun e => e.1)

def KeysNodup (reg : Reg) : Prop :=
  (regKeys reg).Nodup

instance (reg : Reg) : Decidable (KeysNodup reg) := by
  unfold KeysNodup; infer_instance

/-- `pending_acks.pop(rid, None)`: return the stored value (if any) and
the dict with that key removed. -/
def pyDictPop (reg : Reg) (rid : Int) : Option (Int × Option Int) × Reg :=
  ((reg.find? (fun e => decide (e.1 = rid))).map (fun e => e.2),
   reg.eraseP (fun e => decide (e.1 = rid)))

/-- `pending_acks[rid] = v`: overwrite in place or append. -/
def pyDictSet (reg : Reg) (rid : Int) (v : Int × Option Int) : Reg :=
  if reg.any (fun e => decide (e.1 = rid)) then
    reg.map (fun e => if e.1 = rid then (rid, v) else e)
  else reg ++ [(rid, v)]

/-- The guarded registration block of `sender_thread` (lines 111-117):
when the dict has reached `MAX_PENDING_ACKS` entries, the first key in
insertion order (`next(iter(pending_acks))`) is popped before the new
entry is stored. -/
def ackRegister (reg : Reg) (rid : Int) (now : Int) (dest : Option Int) : Reg :=
  let reg1 :=
    if MAX_PENDING_ACKS ≤ reg.length then
      match reg.head? with
      | some e => (pyDictPop reg e.1).2
      | none => reg
    else reg
  pyDictSet reg1 rid (now, dest)

/-- The guarded pop of `on_receive` (lines 136-137):
`entry = pending_acks.pop(req_id, None)`. -/
def ackComplete (reg : Reg) (rid : Int) : Option (Int × Option Int) × Reg :=
  pyDictPop reg rid

/-- The guarded loop body of `ack_watcher` (lines 288-292): iterate over
a snapshot of the dict, collect every entry with `now - t0 > timeout`
into the expired report list and pop it from the dict. -/
def sweepLoop (now timeout : Int) : List RegEntry → Reg → List (Int × Option Int) × Reg
  | [], acc => ([], acc)
  | e :: rest, acc =>
    if now - e.2.1 > timeout then
      let acc2 := (pyDictPop acc e.1).2
      let r := sweepLoop now timeout rest acc2
      ((e.1, e.2.2) :: r.1, r.2)
    else sweepLoop now timeout rest acc

def sweepExpired (reg : Reg) (now timeout : Int) : List (Int × Option Int) × Reg :=
  sweepLoop now timeout reg reg

/-- A whole history of `register` calls applied to the initially empty
registry (each call gives request id, send time, destination). -/
def regTrace (calls : List (Int × Int × Option Int)) : Reg :=
  calls.foldl (fun r c => ackRegister r c.1 c.2.1 c.2.2) []

/-- An interleaving of the two remove paths: each constructor is one
critical section (one lock acquisition) of the source. -/
inductive AckCall where
  | done (rid : Int)
  | sweep (now timeout : Int)

/-- Run a sequence of `complete` / `sweepExpired` critical sections,
collecting the ids reported as matched (an ACK line is printed exactly
when the pop returned an entry) and the ids reported as expired. -/
def ackRun (reg : Reg) : List AckCall → List Int × List Int × Reg
  | [] => ([], [], reg)
  | AckCall.done rid :: rest =>
    let c := ackComplete reg rid
    let r := ackRun c.2 rest
    ((match c.1 with | some _ => [rid] | none => []) ++ r.1, r.2.1, r.2.2)
  | AckCall.sweep now timeout :: rest =>
    let s := sweepExpired reg now timeout
    let r := ackRun s.2 rest
    (r.1, s.1.map (fun e => e.1) ++ r.2.1, r.2.2)

/-- The destination rendering of `ack_watcher`'s report (line 294):
`f"@!{dest:08x}" if dest else "@broadcast"` — Python truthiness, so a
stored destination of 0 takes the broadcast branch. -/
def noAckDst (dest : Option Int) : String :=
  if optIntTruthy dest then ("@!") ++ hex8 (dest.getD 0) else ("@broadcast")

/-- The report lines `ack_watcher` prints for a batch of expired
entries (lines 293-296). -/
def noAckLines (tsFull : String) (expired : List (Int × Option Int)) : List String :=
  expired.map (fun e =>
    C_BLUE ++ "[" ++ tsFull ++ "] NO ACK from " ++ noAckDst e.2 ++ ", id=" ++
      toString e.1 ++ C_RESET)

/-! ## Outbound queue (`send_queue = queue.Queue(maxsize=30)`) -/

abbrev SendTask : Type := String × Option Int × Bool

abbrev SendQueue : Type := List SendTask

/-- `send_queue.put_nowait(task)`: `none` is the raised `queue.Full`
(the queue is left unchanged), `some` is the success case with the task
appended at the back. -/
def putNowait (q : SendQueue) (t : SendTask) : Option SendQueue :=
  if SEND_QUEUE_MAX ≤ q.length then none else some (q ++ [t])

/-! ## Auto-reply marker matching (`on_receive`, lines 183-186)

The source builds the regex
`\b(?:testa|test|тест|ping)\b` and searches it with `re.IGNORECASE`.
The embedding reproduces the CPython `sre` engine semantics for this
pattern exactly:

* a word character (`\w`, and hence a `\b` boundary) is an underscore
  or any Unicode alphanumeric codepoint; `pyWordRanges` is the full
  table of alphanumeric codepoint ranges, generated from the Unicode
  14.0.0 character database that CPython 3.11 ships;
* a literal `p` of the (lowercase) pattern matches an input character
  `c` under `IGNORECASE` iff `lower(c)` is `p` or one of the extra
  case-equivalent codepoints that `sre` adds for `p`
  (`re._casefix._EXTRA_CASES`, embedded in full as `sreExtraCases`);
  `sreLowerTable` is the Unicode simple-lowercase mapping restricted to
  the codepoints whose lowercase lies in the marker alphabet or one of
  its equivalence classes — every other codepoint is left unchanged,
  which cannot change any comparison against a marker character, since
  a codepoint outside that preimage set never lowercases into the
  marker alphabet or its classes;
* the search succeeds iff some marker matches at some position with a
  word boundary on each side; alternation order only affects which
  match is found, not whether one exists, so the ordered
  `testa|test|...` collapses to an existential. -/

/-- Unicode alphanumeric codepoint ranges (`str.isalnum`), the Unicode
part of the regex word class `\w`, generated from Unicode 14.0.0. -/
def pyWordRanges : List (Nat × Nat) := [
  (48, 57), (65, 90), (97, 122), (170, 170), (178, 179), (181, 181),
  (185, 186), (188, 190), (192, 214), (216, 246), (248, 705), (710, 721),
  (736, 740), (748, 748), (750, 750), (880, 884), (886, 887), (890, 893),
  (895, 895), (902, 902), (904, 906), (908, 908), (910, 929), (931, 1013),
  (1015, 1153), (1162, 1327), (1329, 1366), (1369, 1369), (1376, 1416),
  (1488, 1514), (1519, 1522), (1568, 1610), (1632, 1641), (1646, 1647),
  (1649, 1747), (1749, 1749), (1765, 1766), (1774, 1788), (1791, 1791),
  (1808, 1808), (1810, 1839), (1869, 1957), (1969, 1969), (1984, 2026),
  (2036, 2037), (2042, 2042), (2048, 2069), (2074, 2074), (2084, 2084),
  (2088, 2088), (2112, 2136), (2144, 2154), (2160, 2183), (2185, 2190),
  (2208, 2249), (2308, 2361), (2365, 2365), (2384, 2384), (2392, 2401),
  (2406, 2415), (2417, 2432), (2437, 2444), (2447, 2448), (2451, 2472),
  (2474, 2480), (2482, 2482), (2486, 2489), (2493, 2493), (2510, 2510),
  (2524, 2525), (2527, 2529), (2534, 2545), (2548, 2553), (2556, 2556),
  (2565, 2570), (2575, 2576), (2579, 2600), (2602, 2608), (2610, 2611),
  (2613, 2614), (2616, 2617), (2649, 2652), (2654, 2654), (2662, 2671),
  (2674, 2676), (2693, 2701), (2703, 2705), (2707, 2728), (2730, 2736),
  (2738, 2739), (2741, 2745), (2749, 2749), (2768, 2768), (2784, 2785),
  (2790, 2799), (2809, 2809), (2821, 2828), (2831, 2832), (2835, 2856),
  (2858, 2864), (2866, 2867), (2869, 2873), (2877, 2877), (2908, 2909),
  (2911, 2913), (2918, 2927), (2929, 2935), (2947, 2947), (2949, 2954),
  (2958, 2960), (2962, 2965), (2969, 2970), (2972, 2972), (2974, 2975),
  (2979, 2980), (2984, 2986), (2990, 3001), (3024, 3024), (3046, 3058),
  (3077, 3084), (3086, 3088), (3090, 3112), (3114, 3129), (3133, 3133),
  (3160, 3162), (3165, 3165), (3168, 3169), (3174, 3183), (3192, 3198),
  (3200, 3200), (3205, 3212), (3214, 3216), (3218, 3240), (3242, 3251),
  (3253, 3257), (3261, 3261), (3293, 3294), (3296, 3297), (3302, 3311),
  (3313, 3314), (3332, 3340), (3342, 3344), (3346, 3386), (3389, 3389),
  (3406, 3406), (3412, 3414), (3416, 3425), (3430, 3448), (3450, 3455),
  (3461, 3478), (3482, 3505), (3507, 3515), (3517, 3517), (3520, 3526),
  (3558, 3567), (3585, 3632), (3634, 3635), (3648, 3654), (3664, 3673),
  (3713, 3714), (3716, 3716), (3718, 3722), (3724, 3747), (3749, 3749),
  (3751, 3760), (3762, 3763), (3773, 3773), (3776, 3780), (3782, 3782),
  (3792, 3801), (3804, 3807), (3840, 3840), (3872, 3891), (3904, 3911),
  (3913, 3948), (3976, 3980), (4096, 4138), (4159, 4169), (4176, 4181),
  (4186, 4189), (4193, 4193), (4197, 4198), (4206, 4208), (4213, 4225),
  (4238, 4238), (4240, 4249), (4256, 4293), (4295, 4295), (4301, 4301),
  (4304, 4346), (4348, 4680), (4682, 4685), (4688, 4694), (4696, 4696),
  (4698, 4701), (4704, 4744), (4746, 4749), (4752, 4784), (4786, 4789),
  (4792, 4798), (4800, 4800), (4802, 4805), (4808, 4822), (4824, 4880),
  (4882, 4885), (4888, 4954), (4969, 4988), (4992, 5007), (5024, 5109),
  (5112, 5117), (5121, 5740), (5743, 5759), (5761, 5786), (5792, 5866),
  (5870, 5880), (5888, 5905), (5919, 5937), (5952, 5969), (5984, 5996),
  (5998, 6000), (6016, 6067), (6103, 6103), (6108, 6108), (6112, 6121),
  (6128, 6137), (6160, 6169), (6176, 6264), (6272, 6276), (6279, 6312),
  (6314, 6314), (6320, 6389), (6400, 6430), (6470, 6509), (6512, 6516),
  (6528, 6571), (6576, 6601), (6608, 6618), (6656, 6678), (6688, 6740),
  (6784, 6793), (6800, 6809), (6823, 6823), (6917, 6963), (6981, 6988),
  (6992, 7001), (7043, 7072), (7086, 7141), (7168, 7203), (7232, 7241),
  (7245, 7293), (7296, 7304), (7312, 7354), (7357, 7359), (7401, 7404),
  (7406, 7411), (7413, 7414), (7418, 7418), (7424, 7615), (7680, 7957),
  (7960, 7965), (7968, 8005), (8008, 8013), (8016, 8023), (8025, 8025),
  (8027, 8027), (8029, 8029), (8031, 8061), (8064, 8116), (8118, 8124),
  (8126, 8126), (8130, 8132), (8134, 8140), (8144, 8147), (8150, 8155),
  (8160, 8172), (8178, 8180), (8182, 8188), (8304, 8305), (8308, 8313),
  (8319, 8329), (8336, 8348), (8450, 8450), (8455, 8455), (8458, 8467),
  (8469, 8469), (8473, 8477), (8484, 8484), (8486, 8486), (8488, 8488),
  (8490, 8493), (8495, 8505), (8508, 8511), (8517, 8521), (8526, 8526),
  (8528, 8585), (9312, 9371), (9450, 9471), (10102, 10131), (11264, 11492),
  (11499, 11502), (11506, 11507), (11517, 11517), (11520, 11557),
  (11559, 11559), (11565, 11565), (11568, 11623), (11631, 11631),
  (11648, 11670), (11680, 11686), (11688, 11694), (11696, 11702),
  (11704, 11710), (11712, 11718), (11720, 11726), (11728, 11734),
  (11736, 11742), (11823, 11823), (12293, 12295), (12321, 12329),
  (12337, 12341), (12344, 12348), (12353, 12438), (12445, 12447),
  (12449, 12538), (12540, 12543), (12549, 12591), (12593, 12686),
  (12690, 12693), (12704, 12735), (12784, 12799), (12832, 12841),
  (12872, 12879), (12881, 12895), (12928, 12937), (12977, 12991),
  (13312, 19903), (19968, 42124), (42192, 42237), (42240, 42508),
  (42512, 42539), (42560, 42606), (42623, 42653), (42656, 42735),
  (42775, 42783), (42786, 42888), (42891, 42954), (42960, 42961),
  (42963, 42963), (42965, 42969), (42994, 43009), (43011, 43013),
  (43015, 43018), (43020, 43042), (43056, 43061), (43072, 43123),
  (43138, 43187), (43216, 43225), (43250, 43255), (43259, 43259),
  (43261, 43262), (43264, 43301), (43312, 43334), (43360, 43388),
  (43396, 43442), (43471, 43481), (43488, 43492), (43494, 43518),
  (43520, 43560), (43584, 43586), (43588, 43595), (43600, 43609),
  (43616, 43638), (43642, 43642), (43646, 43695), (43697, 43697),
  (43701, 43702), (43705, 43709), (43712, 43712), (43714, 43714),
  (43739, 43741), (43744, 43754), (43762, 43764), (43777, 43782),
  (43785, 43790), (43793, 43798), (43808, 43814), (43816, 43822),
  (43824, 43866), (43868, 43881), (43888, 44002), (44016, 44025),
  (44032, 55203), (55216, 55238), (55243, 55291), (63744, 64109),
  (64112, 64217), (64256, 64262), (64275, 64279), (64285, 64285),
  (64287, 64296), (64298, 64310), (64312, 64316), (64318, 64318),
  (64320, 64321), (64323, 64324), (64326, 64433), (64467, 64829),
  (64848, 64911), (64914, 64967), (65008, 65019), (65136, 65140),
  (65142, 65276), (65296, 65305), (65313, 65338), (65345, 65370),
  (65382, 65470), (65474, 65479), (65482, 65487), (65490, 65495),
  (65498, 65500), (65536, 65547), (65549, 65574), (65576, 65594),
  (65596, 65597), (65599, 65613), (65616, 65629), (65664, 65786),
  (65799, 65843), (65856, 65912), (65930, 65931), (66176, 66204),
  (66208, 66256), (66273, 66299), (66304, 66339), (66349, 66378),
  (66384, 66421), (66432, 66461), (66464, 66499), (66504, 66511),
  (66513, 66517), (66560, 66717), (66720, 66729), (66736, 66771),
  (66776, 66811), (66816, 66855), (66864, 66915), (66928, 66938),
  (66940, 66954), (66956, 66962), (66964, 66965), (66967, 66977),
  (66979, 66993), (66995, 67001), (67003, 67004), (67072, 67382),
  (67392, 67413), (67424, 67431), (67456, 67461), (67463, 67504),
  (67506, 67514), (67584, 67589), (67592, 67592), (67594, 67637),
  (67639, 67640), (67644, 67644), (67647, 67669), (67672, 67702),
  (67705, 67742), (67751, 67759), (67808, 67826), (67828, 67829),
  (67835, 67867), (67872, 67897), (67968, 68023), (68028, 68047),
  (68050, 68096), (68112, 68115), (68117, 68119), (68121, 68149),
  (68160, 68168), (68192, 68222), (68224, 68255), (68288, 68295),
  (68297, 68324), (68331, 68335), (68352, 68405), (68416, 68437),
  (68440, 68466), (68472, 68497), (68521, 68527), (68608, 68680),
  (68736, 68786), (68800, 68850), (68858, 68899), (68912, 68921),
  (69216, 69246), (69248, 69289), (69296, 69297), (69376, 69415),
  (69424, 69445), (69457, 69460), (69488, 69505), (69552, 69579),
  (69600, 69622), (69635, 69687), (69714, 69743), (69745, 69746),
  (69749, 69749), (69763, 69807), (69840, 69864), (69872, 69881),
  (69891, 69926), (69942, 69951), (69956, 69956), (69959, 69959),
  (69968, 70002), (70006, 70006), (70019, 70066), (70081, 70084),
  (70096, 70106), (70108, 70108), (70113, 70132), (70144, 70161),
  (70163, 70187), (70272, 70278), (70280, 70280), (70282, 70285),
  (70287, 70301), (70303, 70312), (70320, 70366), (70384, 70393),
  (70405, 70412), (70415, 70416), (70419, 70440), (70442, 70448),
  (70450, 70451), (70453, 70457), (70461, 70461), (70480, 70480),
  (70493, 70497), (70656, 70708), (70727, 70730), (70736, 70745),
  (70751, 70753), (70784, 70831), (70852, 70853), (70855, 70855),
  (70864, 70873), (71040, 71086), (71128, 71131), (71168, 71215),
  (71236, 71236), (71248, 71257), (71296, 71338), (71352, 71352),
  (71360, 71369), (71424, 71450), (71472, 71483), (71488, 71494),
  (71680, 71723), (71840, 71922), (71935, 71942), (71945, 71945),
  (71948, 71955), (71957, 71958), (71960, 71983), (71999, 71999),
  (72001, 72001), (72016, 72025), (72096, 72103), (72106, 72144),
  (72161, 72161), (72163, 72163), (72192, 72192), (72203, 72242),
  (72250, 72250), (72272, 72272), (72284, 72329), (72349, 72349),
  (72368, 72440), (72704, 72712), (72714, 72750), (72768, 72768),
  (72784, 72812), (72818, 72847), (72960, 72966), (72968, 72969),
  (72971, 73008), (73030, 73030), (73040, 73049), (73056, 73061),
  (73063, 73064), (73066, 73097), (73112, 73112), (73120, 73129),
  (73440, 73458), (73648, 73648), (73664, 73684), (73728, 74649),
  (74752, 74862), (74880, 75075), (77712, 77808), (77824, 78894),
  (82944, 83526), (92160, 92728), (92736, 92766), (92768, 92777),
  (92784, 92862), (92864, 92873), (92880, 92909), (92928, 92975),
  (92992, 92995), (93008, 93017), (93019, 93025), (93027, 93047),
  (93053, 93071), (93760, 93846), (93952, 94026), (94032, 94032),
  (94099, 94111), (94176, 94177), (94179, 94179), (94208, 100343),
  (100352, 101589), (101632, 101640), (110576, 110579), (110581, 110587),
  (110589, 110590), (110592, 110882), (110928, 110930), (110948, 110951),
  (110960, 111355), (113664, 113770), (113776, 113788), (113792, 113800),
  (113808, 113817), (119520, 119539), (119648, 119672), (119808, 119892),
  (119894, 119964), (119966, 119967), (119970, 119970), (119973, 119974),
  (119977, 119980), (119982, 119993), (119995, 119995), (119997, 120003),
  (120005, 120069), (120071, 120074), (120077, 120084), (120086, 120092),
  (120094, 120121), (120123, 120126), (120128, 120132), (120134, 120134),
  (120138, 120144), (120146, 120485), (120488, 120512), (120514, 120538),
  (120540, 120570), (120572, 120596), (120598, 120628), (120630, 120654),
  (120656, 120686), (120688, 120712), (120714, 120744), (120746, 120770),
  (120772, 120779), (120782, 120831), (122624, 122654), (123136, 123180),
  (123191, 123197), (123200, 123209), (123214, 123214), (123536, 123565),
  (123584, 123627), (123632, 123641), (124896, 124902), (124904, 124907),
  (124909, 124910), (124912, 124926), (124928, 125124), (125127, 125135),
  (125184, 125251), (125259, 125259), (125264, 125273), (126065, 126123),
  (126125, 126127), (126129, 126132), (126209, 126253), (126255, 126269),
  (126464, 126467), (126469, 126495), (126497, 126498), (126500, 126500),
  (126503, 126503), (126505, 126514), (126516, 126519), (126521, 126521),
  (126523, 126523), (126530, 126530), (126535, 126535), (126537, 126537),
  (126539, 126539), (126541, 126543), (126545, 126546), (126548, 126548),
  (126551, 126551), (126553, 126553), (126555, 126555), (126557, 126557),
  (126559, 126559), (126561, 126562), (126564, 126564), (126567, 126570),
  (126572, 126578), (126580, 126583), (126585, 126588), (126590, 126590),
  (126592, 126601), (126603, 126619), (126625, 126627), (126629, 126633),
  (126635, 126651), (127232, 127244), (130032, 130041), (131072, 173791),
  (173824, 177976), (177984, 178205), (178208, 183969), (183984, 191456),
  (194560, 195101), (196608, 201546)]

/-- The regex word class `\w` of a Unicode pattern: underscore or any
Unicode alphanumeric codepoint. -/
def isWordChar (c : Char) : Bool :=
  c.toNat == 95 ||
  pyWordRanges.any (fun r => decide (r.1 ≤ c.toNat) && decide (c.toNat ≤ r.2))

/-- `re._casefix._EXTRA_CASES` of CPython 3.11 in full: the sets of
codepoints `sre` treats as case-equivalent under `IGNORECASE` beyond
plain lowercasing (e.g. `s`/`ſ`, `i`/`ı`, `т`/`ᲄ`/`ᲅ`). -/
def sreExtraCases : List (List Nat) := [[105, 305],
  [115, 383],
  [181, 956],
  [837, 953, 8126],
  [912, 8147],
  [944, 8163],
  [946, 976],
  [949, 1013],
  [952, 977],
  [954, 1008],
  [960, 982],
  [961, 1009],
  [962, 963],
  [966, 981],
  [1074, 7296],
  [1076, 7297],
  [1086, 7298],
  [1089, 7299],
  [1090, 7300, 7301],
  [1098, 7302],
  [1123, 7303],
  [7304, 42571],
  [7777, 7835],
  [64261, 64262]]

/-- Unicode simple lowercasing (what `sre` applies to each input
character under `IGNORECASE`), restricted to the codepoints whose
lowercase lies in the marker alphabet `{t,e,s,a,p,i,n,g,т,е,с}` or one
of its `sreExtraCases` classes; identity elsewhere (observationally
equal for comparisons against marker characters, see the section
comment).  `U+0130` (`İ`) lowercases to plain `i` in `sre`. -/
def sreLowerTable : List (Nat × Nat) := [(65, 97), (69, 101), (71, 103), (73, 105), (78, 110), (80, 112), (83, 115), (84, 116), (304, 105), (1045, 1077), (1057, 1089), (1058, 1090)]

def sreToLower (c : Char) : Char :=
  match sreLowerTable.find? (fun e => e.1 == c.toNat) with
  | some e => Char.ofNat e.2
  | none => c

/-- The codepoints an input character may lowercase to in order to
match pattern literal `p` under `IGNORECASE`: the case-equivalence
class of `p` when it has one, else `p` itself. -/
def sreIgnoreSet (p : Char) : List Nat :=
  match sreExtraCases.find? (fun cl => cl.contains p.toNat) with
  | some cl => cl
  | none => [p.toNat]

/-- `IGNORECASE` match of one pattern literal against one input char. -/
def charMatchesIgnore (p c : Char) : Bool :=
  (sreIgnoreSet p).contains (sreToLower c).toNat

/-- `IGNORECASE` match of a literal pattern against an input segment of
the same length. -/
def litsMatchIgnore : List Char → List Char → Bool
  | [], [] => true
  | p :: ps, c :: cs => charMatchesIgnore p c && litsMatchIgnore ps cs
  | _, _ => false

/-- `markers = ["testa", "test", "тест", "ping"]` (line 184). -/
def ackMarkers : List String := ["testa", "test", "тест", "ping"]

/-- Marker `m` matches at position `i` of `cs`: the `m.length` input
characters from `i` match `m` under `IGNORECASE`, and both sides are
word boundaries. -/
def markerAt (cs : List Char) (m : List Char) (i : Nat) : Bool :=
  litsMatchIgnore m ((cs.drop i).take m.length) &&
  (i == 0 || !(isWordChar (cs.getD (i - 1) ' '))) &&
  (decide (cs.length ≤ i + m.length) || !(isWordChar (cs.getD (i + m.length) ' ')))

/-- `re.search(pattern, text, re.IGNORECASE) is not None` (line 186). -/
def markerMatch (s : String) : Bool :=
  let cs := s.toList
  ackMarkers.any (fun m =>
    (List.range (cs.length + 1)).any (fun i => markerAt cs m.toList i))

/-- Python `str.strip()` (no arguments): remove leading and trailing
whitespace. -/
def pyStrip (s : String) : String :=
  String.mk (((s.toList.dropWhile Char.isWhitespace).reverse.dropWhile
    Char.isWhitespace).reverse)

/-! ## The packet classifier (`on_receive`, lines 128-199) -/

/-- The packet fields `on_receive` reads.  `payloadText` is the result
of `decoded.get("payload", b"").decode(errors="ignore")` — the
best-effort decode never raises, so the event is modelled by the text it
decodes to.  `fromIdF`/`fromF`/`toF` are the raw `fromId`, `from` and
`to` fields (Python objects of arbitrary shape). -/
structure Packet where
  portnum : Option String
  requestId : Option Int
  payloadText : String
  fromIdF : Option RawId
  fromF : Option RawId
  toF : Option RawId
  rxRssi : Option Int
  rxSnr : Option Int
  hopStart : Option Int
  hopLimit : Option Int

/-- `normalize_node_id(packet.get("fromId") or packet.get("from"))`. -/
def pktFromId (p : Packet) : Option Int :=
  normalize_node_id (pyOr p.fromIdF p.fromF)

/-- `normalize_node_id(packet.get("to"))`. -/
def pktToId (p : Packet) : Option Int :=
  normalize_node_id p.toF

/-- `is_private = to_id not in (None, 0xFFFFFFFF) and to_id == my_id`
(line 164). -/
def isPrivateMsg (toId myId : Option Int) : Bool :=
  decide (toId ≠ none ∧ toId ≠ some BROADCAST_NUM ∧ toId = myId)

/-- The RSSI/SNR/hops parameter list of the text branch (lines 169-175);
`if hop_start and hop_limit:` is Python truthiness on both fields. -/
def techParams (p : Packet) : List String :=
  (match p.rxRssi with | some r => ["RSSI=" ++ toString r] | none => []) ++
  (match p.rxSnr with | some r => ["SNR=" ++ toString r] | none => []) ++
  (if optIntTruthy p.hopStart && optIntTruthy p.hopLimit then
    ["hops=" ++ toString (p.hopStart.getD 0 - p.hopLimit.getD 0)]
  else [])

/-- Ambient data of one `on_receive` invocation: the node directory, the
local node id (`interface.myInfo.my_node_num`, absent on
`AttributeError`), the current time, and the two halves of the wall
clock string `ts()` (format `"%m-%d %H:%M"`, so `ts()` is
`tsDate ++ " " ++ tsTime` and `ts().split()[1]` is `tsTime`). -/
structure RxEnv where
  dir : Directory
  myId : Option Int
  now : Int
  tsDate : String
  tsTime : String

def rxTs (env : RxEnv) : String :=
  env.tsDate ++ " " ++ env.tsTime

/-- The mutable state `on_receive` touches: the acknowledgment registry,
the name cache and the outbound queue. -/
structure RxState where
  pending : Reg
  cache : Cache
  outq : SendQueue

/-- `on_receive` (lines 128-199), returning the updated shared state and
the lines printed.  The ROUTING_APP branch pops the pending entry and
reports the ACK only when an entry matched; the TEXT_MESSAGE_APP branch
prints the message, then on a marker match builds the auto-reply and
enqueues it with `put_nowait`, reporting a drop on `queue.Full`; every
other port is ignored.  `f"RTT={rtt:.1f}s"` is rendered for the integer
time model as the digits followed by `".0s"`. -/
def on_receive (env : RxEnv) (pkt : Packet) (st : RxState) : RxState × List String :=
  if pkt.portnum = some ("ROUTING_APP") then
    match pkt.requestId with
    | none => (st, [])
    | some rid =>
      let c := ackComplete st.pending rid
      match c.1 with
      | none => ({ st with pending := c.2 }, [])
      | some ent =>
        let rtt := env.now - ent.1
        let fid := pktFromId pkt
        let gr := if optIntTruthy fid then get_name_and_id env.dir st.cache fid
                  else ("?", "unknown", st.cache)
        let params := ["RTT=" ++ toString rtt ++ ".0s"] ++
          (match pkt.rxRssi with | some r => ["RSSI=" ++ toString r] | none => []) ++
          (match pkt.rxSnr with | some r => ["SNR=" ++ toString r] | none => [])
        let line := C_BLUE ++ "[" ++ rxTs env ++ "] ACK from " ++ gr.2.1 ++ ", " ++
          String.intercalate (", ") params ++ C_RESET
        ({ pending := c.2, cache := gr.2.2, outq := st.outq }, [line])
  else if pkt.portnum = some ("TEXT_MESSAGE_APP") then
    let text := pyStrip pkt.payloadText
    let fid := pktFromId pkt
    let gr := if optIntTruthy fid then get_name_and_id env.dir st.cache fid
              else ("unknown", "", st.cache)
    let name := gr.1
    let cache2 := gr.2.2
    let displayId := if optIntTruthy fid then ("@!") ++ hex8 (fid.getD 0) else ("@??")
    let priv := isPrivateMsg (pktToId pkt) env.myId
    let params := techParams pkt
    let meta := if params = [] then ("(") ++ displayId ++ ")"
                else ("(") ++ displayId ++ ", " ++ String.intercalate (", ") params ++ ")"
    let line1 := if priv then C_RED ++ "[" ++ rxTs env ++ "] PM " ++ name ++ ": " ++ text ++ C_RESET
                 else C_GREEN ++ "[" ++ rxTs env ++ "] PUB " ++ name ++ ": " ++ text ++ C_RESET
    let line2 := C_BLUE ++ meta ++ C_RESET
    if markerMatch text then
      let reply := "✅ AR-ACK [" ++ env.tsTime ++ "] " ++ name ++ " (" ++ displayId ++
        ", 📶" ++ String.intercalate (", ") params ++ ")"
      let dest := if priv then fid else none
      match putNowait st.outq (reply, dest, false) with
      | some q2 => ({ pending := st.pending, cache := cache2, outq := q2 }, [line1, line2])
      | none =>
        ({ pending := st.pending, cache := cache2, outq := st.outq },
         [line1, line2,
          C_BLUE ++ "[" ++ rxTs env ++ "] Send queue full, dropping auto reply" ++ C_RESET])
    else ({ pending := st.pending, cache := cache2, outq := st.outq }, [line1, line2])
  else (st, [])

/-! ## The input producer (`input_loop`, lines 249-281) -/

/-- Python `line.split(maxsplit=1)` for a string with no leading
whitespace: the first whitespace-free token, and the remainder after the
separating whitespace run (absent when nothing follows). -/
def pySplitMax1 (s : String) : String × Option String :=
  let tok := s.takeWhile (fun c => !c.isWhitespace)
  let after := (s.toList.dropWhile (fun c => !c.isWhitespace)).dropWhile (fun c => c.isWhitespace)
  (tok, if after = [] then none else some (String.mk after))

/-- One iteration of `input_loop` on a submitted line (lines 254-272):
strip, ignore empty lines, resolve an `@token` target (reporting an
unknown node and discarding the line on failure), then `put_nowait` an
acknowledgment-requested task, reporting the drop on `queue.Full`. -/
def input_iteration (dir : Directory) (q : SendQueue) (rawLine : String)
    (tsDate tsTime : String) : SendQueue × List String :=
  let line := pyStrip rawLine
  if line = "" then (q, [])
  else
    let parsed : Option (String × Option Int) :=
      if line.startsWith ("@") then
        match resolve_node dir ((pySplitMax1 line).1.drop 1) with
        | none => none
        | some d => some ((pySplitMax1 line).2.getD (""), some d)
      else some (line, none)
    match parsed with
    | none =>
      (q, [C_BLUE ++ "[" ++ tsDate ++ " " ++ tsTime ++ "] Unknown node: " ++
        (pySplitMax1 line).1.drop 1 ++ C_RESET])
    | some td =>
      match putNowait q (td.1, td.2, true) with
      | some q2 => (q2, [])
      | none =>
        (q, [C_BLUE ++ "[" ++ tsDate ++ " " ++ tsTime ++
          "] Send queue full, dropping message" ++ C_RESET])

/-! ## Helper lemmas about the registry model -/

theorem regKeys_cons (e : RegEntry) (l : Reg) : regKeys (e :: l) = e.1 :: regKeys l := rfl

theorem regKeys_append (l1 l2 : Reg) : regKeys (l1 ++ l2) = regKeys l1 ++ regKeys l2 :=
  List.map_append _ _ _

theorem mem_regKeys {reg : Reg} {k : Int} : k ∈ regKeys reg ↔ ∃ e ∈ reg, e.1 = k := by
  simp [regKeys]

theorem keysNodup_of_sublist {l1 l2 : Reg} (h : List.Sublist l1 l2) (h2 : KeysNodup l2) :
    KeysNodup l1 :=
  List.Nodup.sublist (h.map _) h2

theorem keysNodup_cons {e : RegEntry} {l : Reg} :
    KeysNodup (e :: l) ↔ e.1 ∉ regKeys l ∧ KeysNodup l := by
  unfold KeysNodup
  rw [regKeys_cons]
  exact List.nodup_cons

theorem pyDictPop_not_mem {reg : Reg} {rid : Int} (h : rid ∉ regKeys reg) :
    pyDictPop reg rid = (none, reg) := by
  have hall : ∀ e ∈ reg, ¬ ((fun e : RegEntry => decide (e.1 = rid)) e = true) := by
    intro e he
    simp only [decide_eq_true_eq]
    intro hk
    exact h (mem_regKeys.2 ⟨e, he, hk⟩)
  unfold pyDictPop
  rw [List.find?_eq_none.2 hall, List.eraseP_of_forall_not hall]
  rfl

theorem pyDictPop_fst_of_mem {reg : Reg} {rid : Int} {v : Int × Option Int}
    (hnd : KeysNodup reg) (hmem : (rid, v) ∈ reg) :
    (pyDictPop reg rid).1 = some v := by
  induction reg with
  | nil => cases hmem
  | cons e rest ih =>
    by_cases hk : e.1 = rid
    · have hfind : (e :: rest).find? (fun x => decide (x.1 = rid)) = some e :=
        List.find?_cons_of_pos _ (by simpa using hk)
      have hev : e = (rid, v) := by
        rcases List.mem_cons.1 hmem with h | h
        · exact h.symm
        · exact absurd (mem_regKeys.2 ⟨_, h, rfl⟩)
            (hk ▸ (keysNodup_cons.1 hnd).1)
      show ((e :: rest).find? (fun x => decide (x.1 = rid))).map (fun e => e.2) = some v
      rw [hfind, hev]
      rfl
    · have hmem2 : (rid, v) ∈ rest := by
        rcases List.mem_cons.1 hmem with h | h
        · exact absurd (congrArg Prod.fst h.symm) hk
        · exact h
      have := ih (keysNodup_cons.1 hnd).2 hmem2
      show ((e :: rest).find? (fun x => decide (x.1 = rid))).map (fun e => e.2) = some v
      rw [List.find?_cons_of_neg _ (by simpa using hk)]
      exact this

theorem pyDictPop_keys_not_mem {reg : Reg} (rid : Int) (hnd : KeysNodup reg) :
    rid ∉ regKeys (pyDictPop reg rid).2 := by
  induction reg with
  | nil => simp [pyDictPop, regKeys]
  | cons e rest ih =>
    by_cases hk : e.1 = rid
    · have h2 : (pyDictPop (e :: rest) rid).2 = rest := by
        show (e :: rest).eraseP (fun x => decide (x.1 = rid)) = rest
        rw [List.eraseP_cons_of_pos (by simpa using hk)]
      rw [h2]
      exact hk ▸ (keysNodup_cons.1 hnd).1
    · have h2 : (pyDictPop (e :: rest) rid).2 = e :: (pyDictPop rest rid).2 := by
        show (e :: rest).eraseP (fun x => decide (x.1 = rid)) =
          e :: rest.eraseP (fun x => decide (x.1 = rid))
        rw [List.eraseP_cons_of_neg (by simpa using hk)]
      rw [h2, regKeys_cons]
      intro hin
      rcases List.mem_cons.1 hin with h | h
      · exact hk h.symm
      · exact ih (keysNodup_cons.1 hnd).2 h

theorem pyDictPop_mem_other {reg : Reg} {rid : Int} {e : RegEntry}
    (he : e ∈ reg) (hk : e.1 ≠ rid) : e ∈ (pyDictPop reg rid).2 :=
  (List.mem_eraseP_of_neg (by simpa using hk)).2 he

theorem pyDictPop_sublist (reg : Reg) (rid : Int) : List.Sublist (pyDictPop reg rid).2 reg :=
  List.eraseP_sublist _

theorem keysNodup_pop {reg : Reg} (rid : Int) (hnd : KeysNodup reg) :
    KeysNodup (pyDictPop reg rid).2 :=
  keysNodup_of_sublist (pyDictPop_sublist reg rid) hnd

theorem pyDictSet_length (reg : Reg) (rid : Int) (v : Int × Option Int) :
    (pyDictSet reg rid v).length ≤ reg.length + 1 := by
  unfold pyDictSet
  split
  · simp only [List.length_map]
    exact Nat.le_succ reg.length
  · simp

theorem pyDictSet_keys_subset {reg : Reg} {rid : Int} {v : Int × Option Int} {k : Int}
    (h : k ∈ regKeys (pyDictSet reg rid v)) : k ∈ regKeys reg ∨ k = rid := by
  unfold pyDictSet at h
  split at h
  · rcases mem_regKeys.1 h with ⟨e, he, hke⟩
    rcases List.mem_map.1 he with ⟨e0, he0, heq⟩
    by_cases h0 : e0.1 = rid
    · right
      rw [← hke, ← heq]
      simp [h0]
    · left
      rw [← hke, ← heq]
      simp only [if_neg h0]
      exact mem_regKeys.2 ⟨e0, he0, rfl⟩
  · rw [regKeys_append] at h
    rcases List.mem_append.1 h with h | h
    · exact Or.inl h
    · right
      simpa [regKeys] using h

theorem pyDictSet_key_mem (reg : Reg) (rid : Int) (v : Int × Option Int) :
    rid ∈ regKeys (pyDictSet reg rid v) := by
  unfold pyDictSet
  split
  · next hany =>
    rcases List.any_eq_true.1 hany with ⟨e0, he0, hk⟩
    have h0 : e0.1 = rid := by simpa using hk
    refine mem_regKeys.2 ⟨(rid, v), List.mem_map.2 ⟨e0, he0, by simp [h0]⟩, rfl⟩
  · rw [regKeys_append]
    exact List.mem_append.2 (Or.inr (by simp [regKeys]))

theorem ackRegister_length {reg : Reg} (h : reg.length ≤ MAX_PENDING_ACKS)
    (rid now : Int) (dest : Option Int) :
    (ackRegister reg rid now dest).length ≤ MAX_PENDING_ACKS := by
  unfold ackRegister
  by_cases hc : MAX_PENDING_ACKS ≤ reg.length
  · have hlen : reg.length = MAX_PENDING_ACKS := Nat.le_antisymm h hc
    match reg, hlen with
    | e :: rest, hlen =>
      simp only [if_pos hc, List.head?_cons]
      have hpop : (pyDictPop (e :: rest) e.1).2 = rest := by
        show (e :: rest).eraseP (fun x => decide (x.1 = e.1)) = rest
        rw [List.eraseP_cons_of_pos (by simp)]
      rw [hpop]
      calc (pyDictSet rest rid (now, dest)).length
          ≤ rest.length + 1 := pyDictSet_length _ _ _
        _ = (e :: rest).length := by simp
        _ = MAX_PENDING_ACKS := hlen
  · rw [if_neg hc]
    calc (pyDictSet reg rid (now, dest)).length
        ≤ reg.length + 1 := pyDictSet_length _ _ _
      _ ≤ MAX_PENDING_ACKS := Nat.succ_le_of_lt (Nat.lt_of_not_le hc)

theorem regTrace_length_le (calls : List (Int × Int × Option Int)) :
    (regTrace calls).length ≤ MAX_PENDING_ACKS := by
  suffices h : ∀ reg : Reg, reg.length ≤ MAX_PENDING_ACKS →
      (calls.foldl (fun r c => ackRegister r c.1 c.2.1 c.2.2) reg).length ≤ MAX_PENDING_ACKS by
    exact h [] (by simp)
  induction calls with
  | nil => intro reg hreg; simpa using hreg
  | cons c rest ih =>
    intro reg hreg
    exact ih _ (ackRegister_length hreg c.1 c.2.1 c.2.2)

theorem ackRegister_at_capacity (e : RegEntry) (rest : Reg) (rid now : Int)
    (dest : Option Int) (hlen : (e :: rest).length = MAX_PENDING_ACKS) :
    ackRegister (e :: rest) rid now dest = pyDictSet rest rid (now, dest) := by
  unfold ackRegister
  rw [if_pos (Nat.le_of_eq hlen.symm)]
  simp only [List.head?_cons]
  have hpop : (pyDictPop (e :: rest) e.1).2 = rest := by
    show (e :: rest).eraseP (fun x => decide (x.1 = e.1)) = rest
    rw [List.eraseP_cons_of_pos (by simp)]
  rw [hpop]

theorem sweepLoop_eq (now timeout : Int) (l : Reg) :
    ∀ s : Reg, KeysNodup (s ++ l) → (∀ e ∈ s, ¬ (now - e.2.1 > timeout)) →
    sweepLoop now timeout l (s ++ l) =
      ((l.filter (fun e => decide (now - e.2.1 > timeout))).map (fun e => (e.1, e.2.2)),
       s ++ l.filter (fun e => !(decide (now - e.2.1 > timeout)))) := by
  induction l with
  | nil =>
    intro s hnd hs
    simp [sweepLoop]
  | cons e rest ih =>
    intro s hnd hs
    by_cases hp : now - e.2.1 > timeout
    · have hkey : ∀ b ∈ s, ¬ ((fun x : RegEntry => decide (x.1 = e.1)) b = true) := by
        intro b hb
        simp only [decide_eq_true_eq]
        intro hbk
        have h1 : e.1 ∈ regKeys (e :: rest) := by simp [regKeys_cons]
        have h2 : b.1 ∈ regKeys s := mem_regKeys.2 ⟨b, hb, rfl⟩
        have hnd2 : ((regKeys s) ++ regKeys (e :: rest)).Nodup := by
          rw [← regKeys_append]
          exact hnd
        have hdisj := (List.nodup_append.1 hnd2).2.2
        exact hdisj h2 (by rw [← hbk] at h1; exact h1)
      have hpop : (pyDictPop (s ++ e :: rest) e.1).2 = s ++ rest := by
        show (s ++ e :: rest).eraseP (fun x => decide (x.1 = e.1)) = s ++ rest
        rw [List.eraseP_append_right _ hkey, List.eraseP_cons_of_pos (by simp)]
      have hsub : List.Sublist (s ++ rest) (s ++ e :: rest) :=
        List.Sublist.append_left (List.sublist_cons_self e rest) s
      have hnd3 : KeysNodup (s ++ rest) := keysNodup_of_sublist hsub hnd
      have ihh := ih s hnd3 hs
      simp only [sweepLoop, if_pos hp, hpop, ihh]
      simp [List.filter_cons, hp]
    · have hrw : s ++ e :: rest = (s ++ [e]) ++ rest := by simp
      have hnd4 : KeysNodup ((s ++ [e]) ++ rest) := by
        rw [← hrw]
        exact hnd
      have hs4 : ∀ b ∈ s ++ [e], ¬ (now - b.2.1 > timeout) := by
        intro b hb
        rcases List.mem_append.1 hb with h | h
        · exact hs b h
        · have : b = e := by simpa using h
          rw [this]
          exact hp
      have ihh := ih (s ++ [e]) hnd4 hs4
      calc sweepLoop now timeout (e :: rest) (s ++ e :: rest)
          = sweepLoop now timeout rest (s ++ e :: rest) := by
            simp only [sweepLoop, if_neg hp]
        _ = sweepLoop now timeout rest ((s ++ [e]) ++ rest) := by rw [← hrw]
        _ = ((rest.filter (fun e => decide (now - e.2.1 > timeout))).map (fun e => (e.1, e.2.2)),
             (s ++ [e]) ++ rest.filter (fun e => !(decide (now - e.2.1 > timeout)))) := ihh
        _ = (((e :: rest).filter (fun e => decide (now - e.2.1 > timeout))).map (fun e => (e.1, e.2.2)),
             s ++ (e :: rest).filter (fun e => !(decide (now - e.2.1 > timeout)))) := by
            simp [List.filter_cons, hp]

theorem sweepExpired_eq (reg : Reg) (now timeout : Int) (hnd : KeysNodup reg) :
    sweepExpired reg now timeout =
      ((reg.filter (fun e => decide (now - e.2.1 > timeout))).map (fun e => (e.1, e.2.2)),
       reg.filter (fun e => !(decide (now - e.2.1 > timeout)))) := by
  have h := sweepLoop_eq now timeout reg [] (by simpa using hnd) (by intro e h; cases h)
  simpa [sweepExpired] using h

theorem pyDictPop_fst_none {reg : Reg} {rid : Int}
    (h : (pyDictPop reg rid).1 = none) : (pyDictPop reg rid).2 = reg := by
  have hfind : reg.find? (fun e => decide (e.1 = rid)) = none := by
    unfold pyDictPop at h
    exact Option.map_eq_none'.1 h
  show reg.eraseP (fun e => decide (e.1 = rid)) = reg
  exact List.eraseP_of_forall_not (List.find?_eq_none.1 hfind)

theorem pyDictPop_fst_some_mem {reg : Reg} {rid : Int} {v : Int × Option Int}
    (h : (pyDictPop reg rid).1 = some v) : rid ∈ regKeys reg := by
  unfold pyDictPop at h
  rcases Option.map_eq_some'.1 h with ⟨e, hfind, hv⟩
  have hp := List.find?_some hfind
  exact mem_regKeys.2 ⟨e, List.mem_of_find?_eq_some hfind, by simpa using hp⟩

theorem regKeys_subset_of_sublist {l1 l2 : Reg} (h : List.Sublist l1 l2) {k : Int}
    (hk : k ∈ regKeys l1) : k ∈ regKeys l2 :=
  (h.map (fun e => e.1)).subset hk

theorem keysNodup_entry_eq {reg : Reg} (hnd : KeysNodup reg) {e1 e2 : RegEntry}
    (h1 : e1 ∈ reg) (h2 : e2 ∈ reg) (hk : e1.1 = e2.1) : e1 = e2 :=
  List.inj_on_of_nodup_map hnd h1 h2 hk

/-- Main induction for the `complete`/`sweepExpired` interleaving: both
report lists only name keys of the starting registry, and they are
disjoint. -/
theorem ackRun_exclusive_aux :
    ∀ (calls : List AckCall) (reg : Reg), KeysNodup reg →
      (∀ k ∈ (ackRun reg calls).1, k ∈ regKeys reg)
      ∧ (∀ k ∈ (ackRun reg calls).2.1, k ∈ regKeys reg)
      ∧ List.Disjoint (ackRun reg calls).1 (ackRun reg calls).2.1 := by
  intro calls
  induction calls with
  | nil =>
    intro reg hnd
    refine ⟨?_, ?_, ?_⟩ <;> simp [ackRun, List.Disjoint]
  | cons c rest ih =>
    intro reg hnd
    cases c with
    | done rid =>
      rcases hc : (ackComplete reg rid).1 with _ | v
      · -- no entry matched: the registry is unchanged
        have hreg2 : (ackComplete reg rid).2 = reg := pyDictPop_fst_none hc
        have ihh := ih reg hnd
        simp only [ackRun, hc, hreg2, List.nil_append]
        exact ihh
      · have hmem : rid ∈ regKeys reg := pyDictPop_fst_some_mem hc
        have hsub := pyDictPop_sublist reg rid
        have hnd2 : KeysNodup (ackComplete reg rid).2 := keysNodup_pop rid hnd
        have hrid2 : rid ∉ regKeys (ackComplete reg rid).2 :=
          pyDictPop_keys_not_mem rid hnd
        have ihh := ih (ackComplete reg rid).2 hnd2
        simp only [ackRun, hc]
        refine ⟨?_, ?_, ?_⟩
        · intro k hk
          rcases List.mem_cons.1 hk with h | h
          · rw [h]; exact hmem
          · exact regKeys_subset_of_sublist hsub (ihh.1 k h)
        · intro k hk
          exact regKeys_subset_of_sublist hsub (ihh.2.1 k hk)
        · intro k hk1 hk2
          rcases List.mem_cons.1 hk1 with h | h
          · rw [h] at hk2
            exact hrid2 (ihh.2.1 rid hk2)
          · exact ihh.2.2 h hk2
    | sweep now timeout =>
      have hsw := sweepExpired_eq reg now timeout hnd
      have hsub : List.Sublist (sweepExpired reg now timeout).2 reg := by
        rw [hsw]
        exact List.filter_sublist reg
      have hnd2 : KeysNodup (sweepExpired reg now timeout).2 :=
        keysNodup_of_sublist hsub hnd
      have ihh := ih (sweepExpired reg now timeout).2 hnd2
      -- an expired id is a key of an entry passing the filter
      have hexp : ∀ k ∈ ((sweepExpired reg now timeout).1.map (fun e => e.1)),
          ∃ e ∈ reg, e.1 = k ∧ (now - e.2.1 > timeout) := by
        intro k hk
        rw [hsw] at hk
        simp only [List.map_map, List.mem_map] at hk
        rcases hk with ⟨e, he, hke⟩
        have := List.mem_filter.1 he
        exact ⟨e, this.1, by simpa using hke, by simpa using this.2⟩
      refine ⟨?_, ?_, ?_⟩
      · intro k hk
        simp only [ackRun] at hk
        exact regKeys_subset_of_sublist hsub (ihh.1 k hk)
      · intro k hk
        simp only [ackRun, List.mem_append] at hk
        rcases hk with h | h
        · rcases hexp k h with ⟨e, he, hke, _⟩
          exact mem_regKeys.2 ⟨e, he, hke⟩
        · exact regKeys_subset_of_sublist hsub (ihh.2.1 k h)
      · intro k hk1 hk2
        simp only [ackRun] at hk1 hk2
        rcases List.mem_append.1 hk2 with h | h
        · -- k both survived (is a key of the filtered registry) and expired
          rcases hexp k h with ⟨e, he, hke, hegt⟩
          have hk2' : k ∈ regKeys (sweepExpired reg now timeout).2 := ihh.1 k hk1
          rw [hsw] at hk2'
          rcases mem_regKeys.1 hk2' with ⟨e2, he2, hke2⟩
          have he2' := List.mem_filter.1 he2
          have : e = e2 := keysNodup_entry_eq hnd he he2'.1 (by rw [hke, hke2])
          rw [this] at hegt
          have : ¬ (now - e2.2.1 > timeout) := by simpa using he2'.2
          exact this hegt
        · exact ihh.2.2 hk1 h

/-- C2: for every interleaving of `complete(requestId)` and
`sweepExpired` critical sections on a registry with (dict-)unique keys,
no request identifier is both returned as matched by a `complete` and
reported as expired by a `sweepExpired`: each operation runs in one
critical section of `pending_lock` (lines 136-137 and 288-292), modelled
as one atomic step, and an entry removed by one path is no longer there
for the other. -/
theorem complete_and_sweep_never_both_report (reg : Reg) (calls : List AckCall)
    (hnd : KeysNodup reg) :
    List.Disjoint (ackRun reg calls).1 (ackRun reg calls).2.1 :=
  (ackRun_exclusive_aux calls reg hnd).2.2

theorem complete_and_sweep_never_both_report_witness :
    KeysNodup [((1 : Int), ((0 : Int), (none : Option Int)))]
    ∧ List.Disjoint
        (ackRun [((1 : Int), ((0 : Int), (none : Option Int)))]
          [AckCall.done 1, AckCall.sweep 100 30]).1
        (ackRun [((1 : Int), ((0 : Int), (none : Option Int)))]
          [AckCall.done 1, AckCall.sweep 100 30]).2.1 :=
  ⟨by decide, complete_and_sweep_never_both_report _ _ (by decide)⟩

/-- Concrete capacity-witness registry: its first entry carries the
newest timestamp, so evicting it shows eviction follows insertion order,
not timestamp order. -/
def regC1head : RegEntry := (0, 500, none)

def regC1tail : Reg :=
  (List.range 99).map (fun i => ((i : Int) + 1, ((0 : Int), (none : Option Int))))

/-- C1: every sequence of `register` critical sections keeps the
registry at or below `MAX_PENDING_ACKS` entries, and a `register` hitting
a full registry first pops exactly the first entry in insertion order
(`next(iter(pending_acks))`, lines 112-114) — irrespective of timestamps
— and only then stores the new entry: at capacity the whole operation
equals a plain dict store into the tail of the registry. -/
theorem ackRegistry_capacity_and_fifo_eviction :
    (∀ calls : List (Int × Int × Option Int),
      (regTrace calls).length ≤ MAX_PENDING_ACKS)
  ∧ (∀ (e : RegEntry) (rest : Reg) (rid now : Int) (dest : Option Int),
      KeysNodup (e :: rest) → (e :: rest).length = MAX_PENDING_ACKS →
      ackRegister (e :: rest) rid now dest = pyDictSet rest rid (now, dest)
      ∧ (e.1 ≠ rid → e.1 ∉ regKeys (ackRegister (e :: rest) rid now dest))
      ∧ rid ∈ regKeys (ackRegister (e :: rest) rid now dest)
      ∧ (ackRegister (e :: rest) rid now dest).length ≤ MAX_PENDING_ACKS) := by
  constructor
  · exact regTrace_length_le
  · intro e rest rid now dest hnd hlen
    have hcap := ackRegister_at_capacity e rest rid now dest hlen
    refine ⟨hcap, ?_, ?_, ?_⟩
    · intro hne hmem
      rw [hcap] at hmem
      rcases pyDictSet_keys_subset hmem with h | h
      · exact (keysNodup_cons.1 hnd).1 h
      · exact hne h
    · rw [hcap]
      exact pyDictSet_key_mem _ _ _
    · exact ackRegister_length (Nat.le_of_eq hlen) rid now dest

theorem ackRegistry_capacity_and_fifo_eviction_witness :
    KeysNodup (regC1head :: regC1tail)
    ∧ (regC1head :: regC1tail).length = MAX_PENDING_ACKS
    ∧ (0 : Int) ∉ regKeys (ackRegister (regC1head :: regC1tail) 555 7 none)
    ∧ (555 : Int) ∈ regKeys (ackRegister (regC1head :: regC1tail) 555 7 none) := by
  have hnd : KeysNodup (regC1head :: regC1tail) := by decide
  have hlen : (regC1head :: regC1tail).length = MAX_PENDING_ACKS := by decide
  have h := ackRegistry_capacity_and_fifo_eviction.2 regC1head regC1tail 555 7 none hnd hlen
  exact ⟨hnd, hlen, h.2.1 (by decide), h.2.2.1⟩

/-- C3: `sweepExpired(now, timeout)` removes and returns exactly the
entries with `now - sentAt > timeout` (strict, as in line 290): the
returned pairs are precisely the expired entries, the remaining registry
is precisely the non-expired entries, and the concrete scenario
`register(7, dest=None)` at time `T` followed by a sweep at `T+31` with
timeout 30 reports `[(7, None)]` and leaves the registry empty. -/
theorem sweepExpired_removes_exactly_expired :
    (∀ (reg : Reg) (now timeout : Int), KeysNodup reg →
      (∀ (rid : Int) (dest : Option Int),
        (rid, dest) ∈ (sweepExpired reg now timeout).1 ↔
          ∃ t0 : Int, (rid, (t0, dest)) ∈ reg ∧ now - t0 > timeout)
      ∧ (∀ e : RegEntry,
          e ∈ (sweepExpired reg now timeout).2 ↔ e ∈ reg ∧ ¬ (now - e.2.1 > timeout)))
  ∧ (∀ T : Int,
      sweepExpired (ackRegister [] 7 T none) (T + 31) 30 = ([(7, none)], [])) := by
  constructor
  · intro reg now timeout hnd
    have hsw := sweepExpired_eq reg now timeout hnd
    constructor
    · intro rid dest
      rw [hsw]
      simp only [List.mem_map, List.mem_filter, decide_eq_true_eq]
      constructor
      · rintro ⟨⟨k, t0, d⟩, ⟨hmem, hlt⟩, heq⟩
        have hk : k = rid := congrArg Prod.fst heq
        have hd : d = dest := congrArg Prod.snd heq
        rw [hk, hd] at hmem
        exact ⟨t0, hmem, hlt⟩
      · rintro ⟨t0, hmem, hlt⟩
        exact ⟨(rid, t0, dest), ⟨hmem, hlt⟩, rfl⟩
    · intro e
      rw [hsw]
      simp [List.mem_filter]
  · intro T
    have h1 : ackRegister [] 7 T none = [(7, (T, none))] := rfl
    have hgt : T + 31 - T > (30 : Int) := by omega
    rw [h1]
    simp [sweepExpired, sweepLoop, hgt, pyDictPop]

theorem sweepExpired_removes_exactly_expired_witness :
    KeysNodup [((7 : Int), ((0 : Int), (none : Option Int)))]
    ∧ ((((7 : Int), (none : Option Int)) ∈
        (sweepExpired [((7 : Int), ((0 : Int), (none : Option Int)))] 31 30).1) ↔
        ∃ t0 : Int, ((7 : Int), (t0, (none : Option Int))) ∈
          [((7 : Int), ((0 : Int), (none : Option Int)))] ∧ 31 - t0 > 30) :=
  ⟨by decide,
   (sweepExpired_removes_exactly_expired.1 _ 31 30 (by decide)).1 7 none⟩

/-- C4: `complete(requestId)` on a present id atomically removes the
entry and returns its stored `(sentAt, destination)` pair; on an absent
id it returns nothing and leaves the registry untouched; and the
concrete scenario `register(42, dest=0x01)` at time `T` followed by
`complete(42)` returns `(T, 0x01)` and leaves the registry empty. -/
theorem complete_removes_and_returns :
    (∀ (reg : Reg) (rid : Int), KeysNodup reg →
      (∀ (t0 : Int) (dest : Option Int), (rid, (t0, dest)) ∈ reg →
        (ackComplete reg rid).1 = some (t0, dest)
        ∧ rid ∉ regKeys (ackComplete reg rid).2
        ∧ (∀ e ∈ reg, e.1 ≠ rid → e ∈ (ackComplete reg rid).2)
        ∧ (∀ e ∈ (ackComplete reg rid).2, e ∈ reg))
      ∧ (rid ∉ regKeys reg → ackComplete reg rid = (none, reg)))
  ∧ (∀ T : Int,
      ackComplete (ackRegister [] 42 T (some 1)) 42 = (some (T, some 1), [])) := by
  constructor
  · intro reg rid hnd
    constructor
    · intro t0 dest hmem
      refine ⟨pyDictPop_fst_of_mem hnd hmem, pyDictPop_keys_not_mem rid hnd, ?_, ?_⟩
      · intro e he hk
        exact pyDictPop_mem_other he hk
      · intro e he
        exact (pyDictPop_sublist reg rid).subset he
    · exact pyDictPop_not_mem
  · intro T
    have h1 : ackRegister [] 42 T (some 1) = [(42, (T, some 1))] := rfl
    show pyDictPop (ackRegister [] 42 T (some 1)) 42 = _
    rw [h1]
    simp [pyDictPop]

theorem complete_removes_and_returns_witness :
    KeysNodup [((42 : Int), ((5 : Int), some (1 : Int)))]
    ∧ (ackComplete [((42 : Int), ((5 : Int), some (1 : Int)))] 42).1 = some (5, some 1) := by
  have hnd : KeysNodup [((42 : Int), ((5 : Int), some (1 : Int)))] := by decide
  exact ⟨hnd, ((complete_removes_and_returns.1 _ 42 hnd).1 5 (some 1) (by simp)).1⟩

/-- C10: `ack_watcher` renders the destination of an expired entry with
`f"@!{dest:08x}" if dest else "@broadcast"` (line 294), so a stored
destination of node 0 is conflated with the absent (broadcast)
destination: both render `"@broadcast"`, the whole report line is
identical for the two, and only a nonzero destination is rendered as
`@!` plus eight hex digits; after registering id 9 for destination 0 and
letting it expire, the sweep output renders `"@broadcast"`. -/
theorem noAck_report_conflates_zero_destination :
    noAckDst (some 0) = "@broadcast"
  ∧ noAckDst none = "@broadcast"
  ∧ (∀ ts : String, ∀ rid : Int,
      noAckLines ts [(rid, some 0)] = noAckLines ts [(rid, none)])
  ∧ (∀ d : Int, d ≠ 0 → noAckDst (some d) = "@!" ++ hex8 d)
  ∧ (∀ T : Int,
      (sweepExpired (ackRegister [] 9 T (some 0)) (T + 31) 30).1.map
        (fun e => noAckDst e.2) = ["@broadcast"]) := by
  refine ⟨by decide, by decide, ?_, ?_, ?_⟩
  · intro ts rid
    simp [noAckLines]
    rfl
  · intro d hd
    have hb : (d == 0) = false := by
      simp only [beq_eq_false_iff_ne, ne_eq]
      exact hd
    simp [noAckDst, optIntTruthy, hb]
  · intro T
    have h1 : ackRegister [] 9 T (some 0) = [(9, (T, some 0))] := rfl
    have hgt : T + 31 - T > (30 : Int) := by omega
    rw [h1]
    simp [sweepExpired, sweepLoop, hgt, pyDictPop]
    decide

theorem noAck_report_conflates_zero_destination_witness :
    (255 : Int) ≠ 0 ∧ noAckDst (some 255) = "@!" ++ hex8 255 :=
  ⟨by decide, noAck_report_conflates_zero_destination.2.2.2.1 255 (by decide)⟩

/-- The destination given to an auto-reply (line 191 of the source):
the normalized sender when the message was classified private, else
broadcast (absent). -/
def rxAutoReplyDest (env : RxEnv) (pkt : Packet) : Option Int :=
  if isPrivateMsg (pktToId pkt) env.myId then pktFromId pkt else none

theorem on_receive_text_match_enqueues (env : RxEnv) (pkt : Packet) (st : RxState)
    (hport : pkt.portnum = some ("TEXT_MESSAGE_APP"))
    (hm : markerMatch (pyStrip pkt.payloadText) = true)
    (hroom : st.outq.length < SEND_QUEUE_MAX) :
    ∃ reply : String,
      (on_receive env pkt st).1.outq =
        st.outq ++ [(reply, rxAutoReplyDest env pkt, false)] := by
  have hnr : ¬ (pkt.portnum = some ("ROUTING_APP")) := by
    rw [hport]
    decide
  have hnotfull : ¬ (SEND_QUEUE_MAX ≤ st.outq.length) := Nat.not_le.2 hroom
  simp only [on_receive, if_neg hnr, if_pos hport, hm, if_true, putNowait,
    if_neg hnotfull]
  exact ⟨_, rfl⟩

theorem on_receive_text_match_full_drops (env : RxEnv) (pkt : Packet) (st : RxState)
    (hport : pkt.portnum = some ("TEXT_MESSAGE_APP"))
    (hm : markerMatch (pyStrip pkt.payloadText) = true)
    (hfull : SEND_QUEUE_MAX ≤ st.outq.length) :
    (on_receive env pkt st).1.outq = st.outq
    ∧ (C_BLUE ++ "[" ++ rxTs env ++ "] Send queue full, dropping auto reply" ++ C_RESET)
        ∈ (on_receive env pkt st).2 := by
  have hnr : ¬ (pkt.portnum = some ("ROUTING_APP")) := by
    rw [hport]
    decide
  constructor
  · simp only [on_receive, if_neg hnr, if_pos hport, hm, if_true, putNowait,
      if_pos hfull]
  · simp only [on_receive, if_neg hnr, if_pos hport, hm, if_true, putNowait,
      if_pos hfull]
    simp

theorem on_receive_text_nomatch (env : RxEnv) (pkt : Packet) (st : RxState)
    (hport : pkt.portnum = some ("TEXT_MESSAGE_APP"))
    (hm : markerMatch (pyStrip pkt.payloadText) = false) :
    (on_receive env pkt st).1.outq = st.outq := by
  have hnr : ¬ (pkt.portnum = some ("ROUTING_APP")) := by
    rw [hport]
    decide
  simp only [on_receive, if_neg hnr, if_pos hport, hm, Bool.false_eq_true, if_false]

/-- C8: enqueueing never blocks and never raises: `put_nowait` on a full
queue (capacity `SEND_QUEUE_MAX = 30`) returns the `Full` signal
immediately with the queue unchanged (so the task is dropped), a
non-full queue gets the task appended, and the input producer
(lines 268-272) reports the drop and leaves the queue unchanged when it
hits `Full`. -/
theorem sendQueue_enqueue_never_blocks :
    (∀ (q : SendQueue) (t : SendTask),
      (SEND_QUEUE_MAX ≤ q.length → putNowait q t = none)
      ∧ (q.length < SEND_QUEUE_MAX → putNowait q t = some (q ++ [t])))
  ∧ (∀ (dir : Directory) (q : SendQueue) (line d1 d2 : String),
      SEND_QUEUE_MAX ≤ q.length → pyStrip line ≠ "" → ¬ ((pyStrip line).startsWith ("@")) →
      input_iteration dir q line d1 d2 =
        (q, [C_BLUE ++ "[" ++ d1 ++ " " ++ d2 ++
          "] Send queue full, dropping message" ++ C_RESET]))
  ∧ (∀ (env : RxEnv) (pkt : Packet) (st : RxState),
      pkt.portnum = some ("TEXT_MESSAGE_APP") →
      markerMatch (pyStrip pkt.payloadText) = true →
      SEND_QUEUE_MAX ≤ st.outq.length →
      (on_receive env pkt st).1.outq = st.outq
      ∧ (C_BLUE ++ "[" ++ rxTs env ++ "] Send queue full, dropping auto reply" ++ C_RESET)
          ∈ (on_receive env pkt st).2) := by
  refine ⟨?_, ?_, ?_⟩
  · intro q t
    constructor
    · intro h
      simp [putNowait, h]
    · intro h
      simp [putNowait, Nat.not_le.2 h]
  · intro dir q line d1 d2 hfull hne hat
    simp only [input_iteration, if_neg hne, if_neg hat]
    simp [putNowait, hfull]
  · intro env pkt st hport hm hfull
    exact on_receive_text_match_full_drops env pkt st hport hm hfull

/-! ## Helper lemmas for `normalize_node_id` -/

theorem dropWhile_of_all_false {p : Char → Bool} :
    ∀ cs : List Char, (∀ c ∈ cs, p c = false) → cs.dropWhile p = cs
  | [], _ => rfl
  | c :: rest, h => by
    have hc := h c (List.mem_cons_self c rest)
    simp [List.dropWhile_cons, hc]

theorem isPyWs_toNat {c : Char} (h : isPyWs c = true) :
    c.toNat = 32 ∨ c.toNat = 9 ∨ c.toNat = 10 ∨ c.toNat = 13 ∨ c.toNat = 11 ∨ c.toNat = 12 := by
  unfold isPyWs at h
  simp only [Bool.or_eq_true, beq_iff_eq] at h
  rcases h with ((((h | h) | h) | h) | h) | h
  · left; rw [h]; rfl
  · right; left; rw [h]; rfl
  · right; right; left; rw [h]; rfl
  · right; right; right; left; rw [h]; rfl
  · right; right; right; right; left; exact h
  · right; right; right; right; right; exact h

theorem hexDigit_not_ws {c : Char} (h : (hexDigitVal c).isSome) : isPyWs c = false := by
  cases hiw : isPyWs c
  · rfl
  · exfalso
    have hr := isPyWs_toNat hiw
    unfold hexDigitVal at h
    split_ifs at h with h1 h2 h3
    · omega
    · omega
    · omega
    · cases h

theorem stripPyWs_all_digits {cs : List Char}
    (h : ∀ c ∈ cs, (hexDigitVal c).isSome) : stripPyWs cs = cs := by
  unfold stripPyWs
  rw [dropWhile_of_all_false cs (fun c hc => hexDigit_not_ws (h c hc))]
  rw [dropWhile_of_all_false cs.reverse
    (fun c hc => hexDigit_not_ws (h c (List.mem_reverse.1 hc)))]
  exact List.reverse_reverse cs

theorem hexTail_all_digits :
    ∀ (cs : List Char) (acc : Nat), (∀ c ∈ cs, (hexDigitVal c).isSome) →
      ∃ v, hexTail cs acc = some v := by
  intro cs
  induction cs with
  | nil =>
    intro acc _
    exact ⟨acc, rfl⟩
  | cons c rest ih =>
    intro acc h
    rcases Option.isSome_iff_exists.1 (h c (List.mem_cons_self c rest)) with ⟨v, hv⟩
    cases rest with
    | nil =>
      rw [hexTail.eq_3, hv]
      exact ⟨16 * acc + v, rfl⟩
    | cons c2 cs2 =>
      rw [hexTail.eq_2, hv]
      exact ih _ (fun x hx => h x (List.mem_cons_of_mem c hx))

theorem hexNum_all_digits (cs : List Char) (hne : cs ≠ [])
    (h : ∀ c ∈ cs, (hexDigitVal c).isSome) : ∃ v, hexNum cs = some v := by
  match cs, hne with
  | c :: rest, _ =>
    rcases Option.isSome_iff_exists.1 (h c (List.mem_cons_self c rest)) with ⟨v, hv⟩
    simp only [hexNum, hv]
    exact hexTail_all_digits rest v (fun x hx => h x (List.mem_cons_of_mem c hx))

theorem parseCoreHex_all_digits (cs : List Char) (hne : cs ≠ [])
    (h : ∀ c ∈ cs, (hexDigitVal c).isSome) : ∃ v, parseCoreHex cs = some v := by
  rcases cs with _ | ⟨c1, _ | ⟨c2, rest2⟩⟩
  · exact absurd rfl hne
  · have he : parseCoreHex [c1] = hexNum [c1] := rfl
    rw [he]
    exact hexNum_all_digits [c1] (by simp) h
  · have hc2 := h c2 (by simp)
    have hx : ¬ (c1 = '0' ∧ (c2 = 'x' ∨ c2 = 'X')) := by
      rintro ⟨-, hc | hc⟩ <;> rw [hc] at hc2 <;> cases hc2
    have he : parseCoreHex (c1 :: c2 :: rest2) = hexNum (c1 :: c2 :: rest2) := by
      simp only [parseCoreHex, if_neg hx]
    rw [he]
    exact hexNum_all_digits _ (by simp) h

theorem pyIntHex_all_digits (s : String) (hne : s.toList ≠ [])
    (hd : ∀ c ∈ s.toList, (hexDigitVal c).isSome) : ∃ n, pyIntHex s = some n := by
  have hstrip : stripPyWs s.toList = s.toList := stripPyWs_all_digits hd
  rcases hv : parseCoreHex s.toList with _ | v
  · exfalso
    rcases parseCoreHex_all_digits s.toList hne hd with ⟨w, hw⟩
    rw [hv] at hw
    cases hw
  · rw [pyIntHex.eq_1, hstrip]
    split
    · next rest heq =>
      exfalso
      have hplus : '+' ∈ s.toList := by
        rw [heq]
        exact List.mem_cons_self _ _
      exact absurd (hd '+' hplus) (by decide)
    · next rest heq =>
      exfalso
      have hminus : '-' ∈ s.toList := by
        rw [heq]
        exact List.mem_cons_self _ _
      exact absurd (hd '-' hminus) (by decide)
    · exact ⟨v, by rw [hv]; rfl⟩

/-- C9: identifier normalization is total and never raises: a string not
starting with `!`, a `!`-string whose tail fails Python hex conversion,
and any value that is neither a string nor an int all normalize to the
absent value; an int passes through; a `!`-string whose tail is a
nonempty run of hex digits parses to a value; and resolving an absent
identifier yields the `"unknown"` labels instead of a crash (the
`isinstance(node_id, int)` guard of `get_name_and_id` is absorbed by the
`Option Int` argument type, since `normalize_node_id` only ever produces
an int or the absent value). -/
theorem normalize_node_id_total_and_safe :
    (∀ s : String, pyIntHex (s.drop 1) = none →
      normalize_node_id (some (RawId.str s)) = none)
  ∧ (∀ s : String, ¬ (s.startsWith ("!")) →
      normalize_node_id (some (RawId.str s)) = none)
  ∧ (∀ n : Int, normalize_node_id (some (RawId.int n)) = some n)
  ∧ normalize_node_id (some RawId.other) = none
  ∧ normalize_node_id none = none
  ∧ (∀ s : String, s.startsWith ("!") → (s.drop 1).toList ≠ [] →
      (∀ c ∈ (s.drop 1).toList, (hexDigitVal c).isSome) →
      ∃ n : Int, normalize_node_id (some (RawId.str s)) = some n)
  ∧ (∀ (dir : Directory) (cache : Cache),
      get_name_and_id dir cache none = ("unknown", "@unknown", cache))
  ∧ (∀ (dir : Directory) (cache : Cache) (raw : Option RawId),
      normalize_node_id raw = none →
      (get_name_and_id dir cache (normalize_node_id raw)).1 = "unknown") := by
  refine ⟨?_, ?_, ?_, rfl, rfl, ?_, ?_, ?_⟩
  · intro s h
    by_cases hs : s.startsWith ("!")
    · simp [normalize_node_id, hs, h]
    · simp [normalize_node_id, hs]
  · intro s hs
    simp [normalize_node_id, hs]
  · intro n
    rfl
  · intro s hs hne hdig
    rcases pyIntHex_all_digits (s.drop 1) hne hdig with ⟨n, hn⟩
    exact ⟨n, by simp [normalize_node_id, hs, hn]⟩
  · intro dir cache
    rfl
  · intro dir cache raw h
    rw [h]
    rfl

theorem normalize_node_id_total_and_safe_witness :
    pyIntHex (String.drop ("!zz") 1) = none
    ∧ normalize_node_id (some (RawId.str ("!zz"))) = none
    ∧ (get_name_and_id [] [] (normalize_node_id (some RawId.other))).1 = "unknown" := by
  refine ⟨by decide, ?_, ?_⟩
  · exact normalize_node_id_total_and_safe.1 ("!zz") (by decide)
  · exact normalize_node_id_total_and_safe.2.2.2.2.2.2.2 [] [] (some RawId.other) (by decide)

def qFull30 : SendQueue := List.replicate 30 ("x", none, true)

theorem sendQueue_enqueue_never_blocks_witness :
    SEND_QUEUE_MAX ≤ qFull30.length ∧ putNowait qFull30 ("y", none, true) = none :=
  ⟨by decide, (sendQueue_enqueue_never_blocks.1 qFull30 ("y", none, true)).1 (by decide)⟩

/-! ## Helper lemmas about the name cache and resolver -/

theorem cacheGet_map_update (c : Cache) (n : Int) (v : String) :
    cacheGet (c.map (fun e => if e.1 = n then (n, v) else e)) n =
      if c.any (fun e => decide (e.1 = n)) then some v else none := by
  induction c with
  | nil => rfl
  | cons e rest ih =>
    by_cases he : e.1 = n
    · simp [cacheGet, he]
    · simp only [List.map_cons, if_neg he]
      unfold cacheGet at ih ⊢
      rw [List.find?_cons_of_neg _ (by simpa using he)]
      rw [ih]
      have hd : decide (e.1 = n) = false := by simpa using he
      rw [List.any_cons, hd, Bool.false_or]

theorem cacheGet_append_new (c : Cache) (n : Int) (v : String)
    (h : c.any (fun e => decide (e.1 = n)) = false) :
    cacheGet (c ++ [(n, v)]) n = some v := by
  unfold cacheGet
  rw [List.find?_append]
  have hnone : c.find? (fun e => decide (e.1 = n)) = none := by
    rw [List.find?_eq_none]
    intro x hx
    simp only [decide_eq_true_eq]
    intro hxn
    have hpx : (fun e : Int × String => decide (e.1 = n)) x = true := decide_eq_true hxn
    have hany : c.any (fun e => decide (e.1 = n)) = true :=
      List.any_eq_true.2 ⟨x, hx, hpx⟩
    rw [h] at hany
    cases hany
  rw [hnone]
  simp

theorem cacheGet_set_self (c : Cache) (n : Int) (v : String) :
    cacheGet (cacheSet c n v) n = some v := by
  unfold cacheSet
  split
  · next hany =>
    rw [cacheGet_map_update, if_pos hany]
  · next hany =>
    refine cacheGet_append_new c n v ?_
    cases hh : c.any (fun e => decide (e.1 = n))
    · rfl
    · exact absurd hh hany

theorem gni_cached (dir : Directory) (cache : Cache) (n : Int) (nm : String)
    (hc : cacheGet cache n = some nm) :
    get_name_and_id dir cache (some n) = (nm, nm ++ " (@!" ++ hex8 n ++ ")", cache) := by
  simp only [get_name_and_id, hc]

theorem gni_int_hit (dir : Directory) (cache : Cache) (n : Int) (s : String)
    (hc : cacheGet cache n = none)
    (ht : truthyStr (lookupShortInt dir n) = some s) :
    get_name_and_id dir cache (some n) =
      (s, s ++ " (@!" ++ hex8 n ++ ")", cacheSet cache n s) := by
  simp only [get_name_and_id, hc, ht, cacheGet_set_self, Option.getD_some]

theorem gni_hex_hit (dir : Directory) (cache : Cache) (n : Int) (s2 : String)
    (hc : cacheGet cache n = none)
    (ht : truthyStr (lookupShortInt dir n) = none)
    (th : truthyStr ((dirGetStr dir ("!" ++ hex8 n)).bind (fun r => r.shortName)) = some s2) :
    get_name_and_id dir cache (some n) =
      (s2, s2 ++ " (@" ++ ("!" ++ hex8 n) ++ ")", cacheSet cache n s2) := by
  simp only [get_name_and_id, hc, ht, th, cacheGet_set_self, Option.getD_some]

theorem gni_fallback (dir : Directory) (cache : Cache) (n : Int)
    (hc : cacheGet cache n = none)
    (ht : truthyStr (lookupShortInt dir n) = none)
    (th : truthyStr ((dirGetStr dir ("!" ++ hex8 n)).bind (fun r => r.shortName)) = none) :
    get_name_and_id dir cache (some n) =
      ("!" ++ hex8 n, ("!" ++ hex8 n) ++ " (@!" ++ hex8 n ++ ")",
        cacheSet cache n ("!" ++ hex8 n)) := by
  simp only [get_name_and_id, hc, ht, th, cacheGet_set_self, Option.getD_some]

/-- C6: resolution precedence of `get_name_and_id` for an uncached id —
(1) cached label, (2) integer-key directory entry with a usable (truthy)
short name, (3) hex-string-key entry with a usable short name, (4) the
hex string itself as fallback — each populating path stores into the
cache before returning, and the concrete scenario: a directory holding
node 0xAABBCC01 with short name `"RVR"` resolves to the display label
`"RVR (@!aabbcc01)"`. -/
theorem resolver_precedence_and_scenario :
    (∀ (dir : Directory) (cache : Cache) (n : Int) (nm : String),
      cacheGet cache n = some nm →
      get_name_and_id dir cache (some n) = (nm, nm ++ " (@!" ++ hex8 n ++ ")", cache))
  ∧ (∀ (dir : Directory) (cache : Cache) (n : Int) (s : String),
      cacheGet cache n = none → lookupShortInt dir n = some s → s ≠ "" →
      get_name_and_id dir cache (some n) =
        (s, s ++ " (@!" ++ hex8 n ++ ")", cacheSet cache n s))
  ∧ (∀ (dir : Directory) (cache : Cache) (n : Int) (s2 : String),
      cacheGet cache n = none → truthyStr (lookupShortInt dir n) = none →
      (dirGetStr dir ("!" ++ hex8 n)).bind (fun r => r.shortName) = some s2 → s2 ≠ "" →
      get_name_and_id dir cache (some n) =
        (s2, s2 ++ " (@" ++ ("!" ++ hex8 n) ++ ")", cacheSet cache n s2))
  ∧ (∀ (dir : Directory) (cache : Cache) (n : Int),
      cacheGet cache n = none → truthyStr (lookupShortInt dir n) = none →
      truthyStr ((dirGetStr dir ("!" ++ hex8 n)).bind (fun r => r.shortName)) = none →
      get_name_and_id dir cache (some n) =
        ("!" ++ hex8 n, ("!" ++ hex8 n) ++ " (@!" ++ hex8 n ++ ")",
          cacheSet cache n ("!" ++ hex8 n)))
  ∧ get_name_and_id [(NodeKey.intKey 2864434177, ⟨some ("RVR")⟩)] [] (some 2864434177) =
      ("RVR", "RVR (@!aabbcc01)", [(2864434177, "RVR")]) := by
  refine ⟨gni_cached, ?_, ?_, gni_fallback, by decide⟩
  · intro dir cache n s hc hl hne
    exact gni_int_hit dir cache n s hc (by simp [truthyStr, hl, hne])
  · intro dir cache n s2 hc ht hh hne
    exact gni_hex_hit dir cache n s2 hc ht (by simp [truthyStr, hh, hne])

theorem resolver_precedence_and_scenario_witness :
    cacheGet [((5 : Int), "AB")] 5 = some ("AB")
    ∧ get_name_and_id [] [((5 : Int), "AB")] (some 5) =
        ("AB", "AB" ++ " (@!" ++ hex8 5 ++ ")", [((5 : Int), "AB")]) :=
  ⟨by decide, resolver_precedence_and_scenario.1 [] [((5 : Int), "AB")] 5 ("AB") (by decide)⟩

theorem strLit_bang_merge : " (@" ++ "!" = " (@!" := rfl

theorem display_at_bang (a t : String) :
    a ++ " (@" ++ ("!" ++ t) ++ ")" = a ++ " (@!" ++ t ++ ")" := by
  rw [String.append_assoc a (" (@"), ← String.append_assoc (" (@"), strLit_bang_merge,
    ← String.append_assoc a (" (@!")]

/-- C7: calling the resolver twice with no intervening invalidation
returns the identical display label both times, the second call leaves
the cache untouched, and the second call performs no directory lookup at
all — its result does not depend on the directory argument (pure cache
hit). -/
theorem resolver_second_call_is_pure_cache_hit :
    ∀ (dir : Directory) (cache : Cache) (nid : Option Int),
      (get_name_and_id dir (get_name_and_id dir cache nid).2.2 nid).2.1
        = (get_name_and_id dir cache nid).2.1
      ∧ (get_name_and_id dir (get_name_and_id dir cache nid).2.2 nid).2.2
        = (get_name_and_id dir cache nid).2.2
      ∧ (∀ dir2 : Directory,
          get_name_and_id dir2 (get_name_and_id dir cache nid).2.2 nid
            = get_name_and_id dir (get_name_and_id dir cache nid).2.2 nid) := by
  intro dir cache nid
  match nid with
  | none => exact ⟨rfl, rfl, fun dir2 => rfl⟩
  | some n =>
    rcases hc : cacheGet cache n with _ | nm
    · rcases ht : truthyStr (lookupShortInt dir n) with _ | s
      · rcases th : truthyStr ((dirGetStr dir ("!" ++ hex8 n)).bind (fun r => r.shortName))
          with _ | s2
        · -- fallback path caches the hex string
          have h1 := gni_fallback dir cache n hc ht th
          have hcc : cacheGet (cacheSet cache n ("!" ++ hex8 n)) n = some ("!" ++ hex8 n) :=
            cacheGet_set_self cache n ("!" ++ hex8 n)
          have h2 := gni_cached dir (cacheSet cache n ("!" ++ hex8 n)) n ("!" ++ hex8 n) hcc
          rw [h1]
          refine ⟨?_, ?_, ?_⟩
          · rw [h2]
          · rw [h2]
          · intro dir2
            rw [h2, gni_cached dir2 (cacheSet cache n ("!" ++ hex8 n)) n ("!" ++ hex8 n) hcc]
        · -- hex-key path caches s2
          have h1 := gni_hex_hit dir cache n s2 hc ht th
          have hcc : cacheGet (cacheSet cache n s2) n = some s2 := cacheGet_set_self cache n s2
          have h2 := gni_cached dir (cacheSet cache n s2) n s2 hcc
          rw [h1]
          refine ⟨?_, ?_, ?_⟩
          · rw [h2]
            exact (display_at_bang s2 (hex8 n)).symm
          · rw [h2]
          · intro dir2
            rw [h2, gni_cached dir2 (cacheSet cache n s2) n s2 hcc]
      · -- integer-key path caches s
        have h1 := gni_int_hit dir cache n s hc ht
        have hcc : cacheGet (cacheSet cache n s) n = some s := cacheGet_set_self cache n s
        have h2 := gni_cached dir (cacheSet cache n s) n s hcc
        rw [h1]
        refine ⟨?_, ?_, ?_⟩
        · rw [h2]
        · rw [h2]
        · intro dir2
          rw [h2, gni_cached dir2 (cacheSet cache n s) n s hcc]
    · -- already cached: both calls are the same cached read
      have h1 := gni_cached dir cache n nm hc
      rw [h1]
      have h2 := gni_cached dir cache n nm hc
      refine ⟨?_, ?_, ?_⟩
      · rw [h2]
      · rw [h2]
      · intro dir2
        rw [h2, gni_cached dir2 cache n nm hc]

/-- C5: for a text-message event whose stripped decoded payload matches
the marker vocabulary (case-insensitive whole-word search, line 186),
exactly one auto-reply task is appended to the outbound queue, with the
acknowledgment-request flag disabled and destination the normalized
sender when the message was classified private and broadcast (absent)
otherwise; the enqueue is `put_nowait`: on a full queue the reply is
dropped, the drop is reported, and nothing is raised; a non-matching
payload enqueues nothing. -/
theorem autoreply_enqueued_exactly_on_marker_match :
    ∀ (env : RxEnv) (pkt : Packet) (st : RxState),
      pkt.portnum = some ("TEXT_MESSAGE_APP") →
      (markerMatch (pyStrip pkt.payloadText) = true →
        (st.outq.length < SEND_QUEUE_MAX →
          ∃ reply : String,
            (on_receive env pkt st).1.outq =
              st.outq ++ [(reply, rxAutoReplyDest env pkt, false)])
        ∧ (SEND_QUEUE_MAX ≤ st.outq.length →
            (on_receive env pkt st).1.outq = st.outq
            ∧ (C_BLUE ++ "[" ++ rxTs env ++ "] Send queue full, dropping auto reply" ++
                C_RESET) ∈ (on_receive env pkt st).2))
      ∧ (markerMatch (pyStrip pkt.payloadText) = false →
          (on_receive env pkt st).1.outq = st.outq) := by
  intro env pkt st hport
  constructor
  · intro hm
    constructor
    · intro hroom
      exact on_receive_text_match_enqueues env pkt st hport hm hroom
    · intro hfull
      exact on_receive_text_match_full_drops env pkt st hport hm hfull
  · intro hm
    exact on_receive_text_nomatch env pkt st hport hm

set_option maxRecDepth 8192 in
theorem autoreply_enqueued_exactly_on_marker_match_witness :
    markerMatch (pyStrip ("ping test")) = true
    ∧ ∃ reply : String,
        (on_receive ⟨[], none, 0, "02-06", "16:43"⟩
          ⟨some ("TEXT_MESSAGE_APP"), none, "ping test", none, some (RawId.int 42),
            none, none, none, none, none⟩ ⟨[], [], []⟩).1.outq =
          [] ++ [(reply,
            rxAutoReplyDest ⟨[], none, 0, "02-06", "16:43"⟩
              ⟨some ("TEXT_MESSAGE_APP"), none, "ping test", none, some (RawId.int 42),
                none, none, none, none, none⟩, false)] := by
  have hm : markerMatch (pyStrip ("ping test")) = true := by decide
  have h := autoreply_enqueued_exactly_on_marker_match
    ⟨[], none, 0, "02-06", "16:43"⟩
    ⟨some ("TEXT_MESSAGE_APP"), none, "ping test", none, some (RawId.int 42),
      none, none, none, none, none⟩
    ⟨[], [], []⟩ rfl
  exact ⟨hm, (h.1 hm).1 (by decide)⟩
